import Mathlib

/-! Verification of the resilient-sdk validation engine.

Shallow embedding of the `sdk_validate_*` rule engine of the
`resilient-python-api` repository:

* `resilient_sdk/util/sdk_validate_helpers.py` — the check functions
  (`selftest_*`, `package_files_*`);
* `resilient_sdk/util/sdk_validate_configs.py` — the static attribute
  dictionaries (rule catalog) passed to the check functions;
* `resilient_sdk/util/constants.py` — string constants.

External collaborators (the file system, `subprocess`, `difflib`,
`pkg_resources`, the jinja renderer and the `package_file_helpers`
parsers) are modelled as explicit inputs: a check function that in
Python reads a file or runs a subprocess is embedded as a pure function
of the observed file contents / exit code / captured output.  Python
strings are embedded as Lean `String`, and the partial Python string
operations used by the code (`str.index`, slicing, `rfind`) are
reimplemented below with Python semantics.
-/

namespace ResilientSdk

/-! Section: Python string primitives

Faithful models of the CPython string operations used by
`sdk_validate_helpers.py`.  All operate on `List Char` so that proofs
and witnesses can evaluate them by `decide`/`rfl`.
-/

/-- Python's whitespace predicate for `str.strip()` (ASCII part; the
source code only ever strips ASCII text). -/
def isPyWhitespace (c : Char) : Bool :=
  c = ' ' || c = '\t' || c = '\n' || c = '\r' || c = '\x0b' || c = '\x0c'

/-- Python `str.strip()` with no argument: remove leading and trailing
whitespace. -/
def pyStrip (s : String) : String :=
  ⟨((s.toList.dropWhile isPyWhitespace).reverse.dropWhile isPyWhitespace).reverse⟩

/-- First index at which `sub` occurs in `s` (Python `str.find` /
`str.index` search), `none` when `sub` does not occur. -/
def pyFindList (sub s : List Char) : Option Nat :=
  (List.range (s.length + 1)).find? (fun i => sub.isPrefixOf (s.drop i))

/-- Last index at which `sub` occurs in `s` (Python `str.rfind` search),
`none` when `sub` does not occur. -/
def pyRfindList (sub s : List Char) : Option Nat :=
  (List.range (s.length + 1)).reverse.find? (fun i => sub.isPrefixOf (s.drop i))

/-- Python `s.find(sub)`: first occurrence index, `-1` when absent. -/
def pyFind (s sub : String) : Int :=
  match pyFindList sub.toList s.toList with
  | some i => (i : Int)
  | none => -1

/-- Python `s.rfind(sub)`: last occurrence index, `-1` when absent. -/
def pyRfind (s sub : String) : Int :=
  match pyRfindList sub.toList s.toList with
  | some i => (i : Int)
  | none => -1

/-- Python `sub in s` for strings. -/
def strContains (s sub : String) : Bool :=
  (pyFindList sub.toList s.toList).isSome

/-- Python slice `l[i:j]` on a list: negative indices count from the
end, out-of-range indices are clamped. -/
def pySliceList (l : List Char) (i j : Int) : List Char :=
  let n : Int := l.length
  let a : Int := if i < 0 then max 0 (n + i) else min i n
  let b : Int := if j < 0 then max 0 (n + j) else min j n
  (l.take b.toNat).drop a.toNat

/-- Python slice `s[i:j]` on a string. -/
def pySlice (s : String) (i j : Int) : String :=
  ⟨pySliceList s.toList i j⟩

/-- Python slice `s[i:]` on a string. -/
def pySliceFrom (s : String) (i : Int) : String :=
  pySlice s i (s.toList.length : Int)

/-- Replace every (non-overlapping, leftmost-first) occurrence of `pat`
by `rep`, with fuel for termination; fuel `s.length` suffices for a
non-empty pattern. -/
def pyReplaceList (pat rep : List Char) : Nat → List Char → List Char
  | _, [] => []
  | 0, s => s
  | Nat.succ fuel, c :: cs =>
    if pat ≠ [] ∧ pat.isPrefixOf (c :: cs) then
      rep ++ pyReplaceList pat rep fuel ((c :: cs).drop pat.length)
    else
      c :: pyReplaceList pat rep fuel cs

/-- Python `s.replace(pat, rep)` (for the non-empty patterns the source
uses). -/
def pyReplace (s pat rep : String) : String :=
  ⟨pyReplaceList pat.toList rep.toList s.toList.length s.toList⟩

/-- Python `str.splitlines(keepends=True)`, recognising the line
endings that actually occur in the validated text (`\n`, `\r\n`, `\r`);
the accumulator holds the current line reversed. -/
def splitlinesAux : List Char → List Char → List (List Char)
  | [], acc => if acc.isEmpty then [] else [acc.reverse]
  | '\r' :: '\n' :: rest, acc => (acc.reverse ++ ['\r', '\n']) :: splitlinesAux rest []
  | '\r' :: rest, acc => (acc.reverse ++ ['\r']) :: splitlinesAux rest []
  | '\n' :: rest, acc => (acc.reverse ++ ['\n']) :: splitlinesAux rest []
  | c :: rest, acc => splitlinesAux rest (c :: acc)

/-- Python `s.splitlines(True)`. -/
def pySplitlinesKeepends (s : String) : List String :=
  (splitlinesAux s.toList []).map (fun l => ⟨l⟩)

/-- Python `str(list_of_strings)` as rendered by `"{0}".format(lst)`
for lists of strings without quotes or escape-needing characters
(the shape the validator interpolates into messages). -/
def pyReprList (l : List String) : String :=
  "[" ++ String.intercalate ", " (l.map (fun s => "'" ++ s ++ "'")) ++ "]"

/-- Python `s.startswith(pre)`. -/
def pyStartsWith (s pre : String) : Bool :=
  pre.toList.isPrefixOf s.toList

/-- Python `s.endswith(suf)`. -/
def pyEndsWith (s suf : String) : Bool :=
  suf.toList.isSuffixOf s.toList

/-- Python `os.path.join(a, b)` for the two-argument calls the README
check makes (second argument relative or absolute). -/
def osPathJoin (a b : String) : String :=
  if pyStartsWith b "/" then b
  else if a = "" then b
  else if pyEndsWith a "/" then a ++ b
  else a ++ "/" ++ b

/-- Lexicographic order on python `(major, minor)` version tuples, as
Python compares `tuple < tuple`. -/
def pyTupleLt (a b : Nat × Nat) : Bool :=
  a.1 < b.1 || (a.1 = b.1 && a.2 < b.2)

/-! Section: Data model

`resilient_sdk/util/constants.py` (in the sources) and the
`SDKValidateIssue` value object (its module `sdk_validate_issue.py` is
not among the sources; modelled from the spec's data model: an Issue is
a name, a description, a severity drawn from the closed ordered set
CRITICAL > WARNING > INFO > DEBUG(=pass), and a remediation/solution
string; constructed positionally as `SDKValidateIssue(name,
description, severity, solution)` with the severity defaulting to
CRITICAL and the solution defaulting to the empty string). -/

/-- From `constants.py`: `ENV_VAR_APP_CONFIG_FILE = "APP_CONFIG_FILE"`. -/
def ENV_VAR_APP_CONFIG_FILE : String := "APP_CONFIG_FILE"

/-- From `constants.py`: `RESILIENT_LIBRARIES_VERSION = "43.0.0"`. -/
def RESILIENT_LIBRARIES_VERSION : String := "43.0.0"

/-- From `constants.py`: `MIN_SUPPORTED_PY_VERSION = (3, 6)`
(re-exported by `sdk_helpers`). -/
def MIN_SUPPORTED_PY_VERSION : Nat × Nat := (3, 6)

/-- From `constants.py`: `CIRCUITS_PACKAGE_NAME = "resilient-circuits"`. -/
def CIRCUITS_PACKAGE_NAME : String := "resilient-circuits"

/-- From `constants.py`: `DOCGEN_PLACEHOLDER_STRING = "::CHANGE_ME::"`. -/
def DOCGEN_PLACEHOLDER_STRING : String := "::CHANGE_ME::"

/-- Modelled from the spec: Severity is "a small closed ordered set:
CRITICAL > WARNING > INFO > DEBUG(=pass)" (the numeric
`SEVERITY_LEVEL_*` constants of the `SDKValidateIssue` class, whose
module is not among the sources). -/
inductive Severity where
  | critical
  | warn
  | info
  | debug
deriving DecidableEq

/-- Modelled from the spec: the Issue value object produced by every
check — "name, description (rendered from the rule's template plus
runtime values), severity, and a remediation suggestion"; immutable
once constructed.  The field defaults stand in for the constructor
defaults of the (missing) `sdk_validate_issue.py`; they exist only so
that the source's constructor calls that omit arguments (the exit>1
Issue at helpers lines 234-238 and the two-argument call at line 594)
can be embedded.  No claim verdict rests on the default values
themselves. -/
structure SDKValidateIssue where
  name : String
  description : String
  severity : Severity := .critical
  solution : String := ""
deriving DecidableEq

/-- The domain exception (`SDKException`), carried as its constructor
message; the helpers only ever consume its `str(e)` rendering, which
is `sdkExceptionStr` below. -/
abbrev SDKException : Type := String

/-- Modelled from the spec and the repository's own tests: the
`str(e)` rendering of an `SDKException` (its module
`sdk_exception.py` is not among the sources) prefixes the constructor
message with "ERROR: ".  Evidence in the sources: the customize.py
test (test_sdk_validate_helpers.py lines 385–392) feeds
`SDKException("failed")` — no "ERROR" in the constructor message —
through `message.index("ERROR")` in the helper and asserts a returned
CRITICAL Issue, which requires `str(e)` to contain "ERROR"; and the
README branch strips exactly the leading "ERROR: " from `str(e)`. -/
def sdkExceptionStr (msg : String) : String := "ERROR: " ++ msg

/-- A Python `ValueError` (raised by `str.index` when the substring is
absent), carried as its message. -/
abbrev PyValueError : Type := String

/-! Section: Selftest checks

`sdk_validate_helpers.py` lines 21–258 with the corresponding
`selftest_attributes` entries of `sdk_validate_configs.py` (both in the
sources).  The config entries pre-render their `"...".format(...)`
calls on `constants` values, so the attribute values below are the
already-formatted strings; templates still holding a runtime
placeholder are embedded as functions of the runtime value. -/

/-- The outcome of the `pkg_resources` collaborators in
`selftest_validate_resilient_circuits_installed`: the version object
returned by `sdk_helpers.get_package_version` (`none` when the package
is not installed, otherwise its display string) together with the
results of the two comparisons the code makes against
`pkg_resources.parse_version(RESILIENT_LIBRARIES_VERSION)`. -/
structure VersionLookup where
  version : Option String
  geMin : Bool
  ltMin : Bool

/-- `selftest_attributes[0]` from `sdk_validate_configs.py`. -/
structure SelftestCircuitsAttr where
  failName : String
  failMsgFormat : String → String
  failSolution : String
  missingName : String
  missingMsg : String
  missingSolution : String
  severity : Severity
  passName : String
  passMsg : String

/-- The concrete `selftest_attributes[0]` entry (format calls on
`constants` already applied). -/
def selftestCircuitsAttr : SelftestCircuitsAttr where
  failName := "'resilient-circuits' version is too low"
  failMsgFormat := fun v => "'resilient-circuits==" ++ v ++ "' is not supported"
  failSolution := "Upgrade 'resilient-circuits' by running 'pip install 'resilient-circuits>=43.0.0''"
  missingName := "'resilient-circuits' not found"
  missingMsg := "'resilient-circuits' is not installed in your python environment"
  missingSolution := "Please install 'resilient-circuits' by running 'pip install 'resilient-circuits''"
  severity := .critical
  passName := "'resilient-circuits' found in env"
  passMsg := "'resilient-circuits' was found in the python environment with the minimum version installed"

/-- `selftest_validate_resilient_circuits_installed` (helpers lines
21–69): branch on the version lookup exactly as the source's
`if`/`elif` chain does; the final `else` raises `SDKException`. -/
def selftest_validate_resilient_circuits_installed (attr : SelftestCircuitsAttr)
    (lookup : VersionLookup) : Except SDKException (Bool × SDKValidateIssue) :=
  if lookup.version.isSome ∧ lookup.geMin then
    .ok (true, { name := attr.passName, description := attr.passMsg,
                 severity := .debug, solution := "" })
  else if lookup.version.isSome ∧ lookup.ltMin then
    .ok (false, { name := attr.failName,
                  description := attr.failMsgFormat (lookup.version.getD ""),
                  severity := attr.severity, solution := attr.failSolution })
  else if ¬ lookup.version.isSome then
    .ok (false, { name := attr.missingName, description := attr.missingMsg,
                  severity := attr.severity, solution := attr.missingSolution })
  else
    .error ("Unknown error while checking for " ++ CIRCUITS_PACKAGE_NAME)

/-- `selftest_attributes[1]` from `sdk_validate_configs.py` (these
templates are formatted at call time with the package name / path). -/
structure SelftestPackageAttr where
  failNameFormat : String → String
  failMsgFormat : String → String
  solutionFormat : String → String → String
  severity : Severity
  passNameFormat : String → String
  passMsgFormat : String → String

/-- The concrete `selftest_attributes[1]` entry. -/
def selftestPackageAttr : SelftestPackageAttr where
  failNameFormat := fun p => "'" ++ p ++ "' not found"
  failMsgFormat := fun p => "'" ++ p ++ "' is not installed in your python environment"
  solutionFormat := fun p path => "Please install '" ++ p ++ "' by running 'pip install " ++ path ++ "'"
  severity := .critical
  passNameFormat := fun p => "'" ++ p ++ "' found in env"
  passMsgFormat := fun p => "'" ++ p ++ "' is correctly installed in your python environment"

/-- `selftest_validate_package_installed` (helpers lines 72–104);
`installed` is the result of the
`package_helpers.check_package_installed` collaborator. -/
def selftest_validate_package_installed (attr : SelftestPackageAttr)
    (packageName pathPackage : String) (installed : Bool) :
    Bool × SDKValidateIssue :=
  if installed then
    (true, { name := attr.passNameFormat packageName,
             description := attr.passMsgFormat packageName,
             severity := .debug, solution := "" })
  else
    (false, { name := attr.failNameFormat packageName,
              description := attr.failMsgFormat packageName,
              severity := attr.severity,
              solution := attr.solutionFormat packageName pathPackage })

/-- `selftest_attributes[2]` from `sdk_validate_configs.py`. -/
structure SelftestFileAttr where
  failName : String
  failMsg : String
  solution : String
  severity : Severity
  passName : String
  passMsgFormat : String → String

/-- The concrete `selftest_attributes[2]` entry. -/
def selftestFileAttr : SelftestFileAttr where
  failName := "selftest.py not found"
  failMsg := "selftest.py is a required file"
  solution := "Please run codegen --reload and implement the templated selftest function"
  severity := .critical
  passName := "selftest.py found"
  passMsgFormat := fun p => "selftest.py file found at path '" ++ p ++ "'"

/-- `selftest_validate_selftestpy_file_exists` (helpers lines 107–141);
`readable` records whether the `sdk_helpers.validate_file_paths`
collaborator succeeded (`false` models its `SDKException`, caught by
the source's `try`/`except`). -/
def selftest_validate_selftestpy_file_exists (attr : SelftestFileAttr)
    (pathSelftestPyFile : String) (readable : Bool) :
    Bool × SDKValidateIssue :=
  if readable then
    (true, { name := attr.passName,
             description := attr.passMsgFormat pathSelftestPyFile,
             severity := .debug, solution := "" })
  else
    (false, { name := attr.failName, description := attr.failMsg,
              severity := attr.severity, solution := attr.solution })

/-- `selftest_attributes[3]` from `sdk_validate_configs.py`. -/
structure SelftestRunAttr where
  failName : String
  failMsgFormat : String → String → String
  failSolution : String
  failSeverity : Severity
  missingName : String
  missingMsgFormat : String → String
  missingSeverity : Severity
  missingSolution : String
  errorName : String
  errorMsgFormat : String → String
  errorSeverity : Severity
  passName : String
  passMsgFormat : String → String

/-- The concrete `selftest_attributes[3]` entry (note the double space
in `"selftest.py failed  for {0}. Details: {1}"`, kept verbatim). -/
def selftestRunAttr : SelftestRunAttr where
  failName := "selftest.py failed"
  failMsgFormat := fun p d => "selftest.py failed  for " ++ p ++ ". Details: " ++ d
  failSolution := "Please check your configuration values and make sure selftest.py is properly implemented"
  failSeverity := .critical
  missingName := "selftest.py not implemented"
  missingMsgFormat := fun p => "selftest.py not implemented for " ++ p
  missingSeverity := .critical
  missingSolution := "selftest.py is a recommended check that should be implemented. More info <TODO: LINK>"
  errorName := "selftest.py failed"
  errorMsgFormat := fun d => "While running selftest.py, 'resilient-circuits' failed to connect to server. Details: " ++ d
  errorSeverity := .critical
  passName := "selftest.py success"
  passMsgFormat := fun p => "selftest.py successfully ran for '" ++ p ++ "'"

/-- `selftest_run_selftestpy` (helpers lines 144–258).  The subprocess
collaborator is an input: `returncode` and the decoded `stderr` text
(`details`).  The function's effect on the process environment is made
explicit as the ordered list of `os.environ` writes it performs
(source lines 169–174 and 190–191); everything else is the pure
classification of lines 223–258. -/
def selftest_run_selftestpy (attr : SelftestRunAttr) (packageName : String)
    (pathAppConfig : Option String) (returncode : Int) (details : String) :
    List (String × String) × Except SDKException (Bool × SDKValidateIssue) :=
  -- `if not path_app_config: path_app_config = ""`
  let appConfigValue : String :=
    match pathAppConfig with
    | none => ""
    | some p => if p = "" then "" else p
  -- set before launching the subprocess, reset to "" after it exits
  let envWrites := [(ENV_VAR_APP_CONFIG_FILE, appConfigValue),
                    (ENV_VAR_APP_CONFIG_FILE, "")]
  let result : Except SDKException (Bool × SDKValidateIssue) :=
    if returncode = 1 then
      -- the slice of details between its last opening and closing curly
      -- braces, then .strip().replace of newlines by ". " and tabs by " "
      let d := pyReplace (pyReplace (pyStrip
        (pySlice details (pyRfind details "\x7b" + 1) (pyRfind details "\x7d"))) "\n" ". ") "\t" " "
      .ok (false, { name := attr.failName,
                    description := attr.failMsgFormat packageName d,
                    severity := attr.failSeverity, solution := attr.failSolution })
    else if returncode > 1 then
      -- details[details.rfind("ERROR"):].strip().replace("\n", ". ").replace("\t", " ")
      let d := pyReplace (pyReplace (pyStrip
        (pySliceFrom details (pyRfind details "ERROR"))) "\n" ". ") "\t" " "
      .ok (false, { name := attr.errorName,
                    description := attr.errorMsgFormat d,
                    severity := attr.errorSeverity })
    else if returncode = 0 then
      if pyFind details "'state': 'unimplemented'" ≠ -1 then
        .ok (false, { name := attr.missingName,
                      description := attr.missingMsgFormat packageName,
                      severity := attr.missingSeverity, solution := attr.missingSolution })
      else
        .ok (true, { name := attr.passName,
                     description := attr.passMsgFormat packageName,
                     severity := .debug, solution := "" })
    else
      .error ("Unknown error while running 'resilient-circuits selftest -l "
              ++ pyReplace packageName "_" "-" ++ "'")
  (envWrites, result)

/-! Section: setup.py attribute predicates

The `fail_func` lambdas of `setup_py_attributes` in
`sdk_validate_configs.py` (in the sources); their
`package_file_helpers` collaborators are modelled from the spec. -/

/-- Split a character list on `'.'` (Python `str.split(".")`). -/
def splitOnDot : List Char → List (List Char)
  | [] => [[]]
  | '.' :: rest => [] :: splitOnDot rest
  | c :: rest =>
    match splitOnDot rest with
    | [] => [[c]]
    | g :: gs => (c :: g) :: gs

/-- Parse a non-empty all-digit character list as a natural number. -/
def digitsToNat? (cs : List Char) : Option Nat :=
  if cs ≠ [] ∧ cs.all Char.isDigit then
    some (cs.foldl (fun n c => n * 10 + (c.toNat - 48)) 0)
  else
    none

/-- Modelled from the spec: `package_file_helpers.get_required_python_version`
(module not among the sources) parses a `python_requires` specifier of
the form ">=X.Y" into the version tuple (X, Y) and "raises a parse
error (a domain exception)" for any specifier not using the `>=`
comparator. -/
def get_required_python_version (s : String) : Except SDKException (Nat × Nat) :=
  if pyStartsWith s ">=" then
    match splitOnDot (s.toList.drop 2) with
    | [a, b] =>
      match digitsToNat? a, digitsToNat? b with
      | some x, some y => .ok (x, y)
      | _, _ => .error "ERROR: could not parse the python_requires version"
    | _ => .error "ERROR: could not parse the python_requires version"
  else
    .error "ERROR: could not parse the python_requires version"

/-- The `setup_py_attributes["python_requires"]["fail_func"]` lambda
(configs lines 81–92): `get_required_python_version(x) <
sdk_helpers.MIN_SUPPORTED_PY_VERSION`; a parse error raised by the
collaborator propagates out of the lambda. -/
def pythonRequiresFailFunc (x : String) : Except SDKException Bool :=
  (get_required_python_version x).map (fun v => pyTupleLt v MIN_SUPPORTED_PY_VERSION)

/-- Modelled from the spec: `package_file_helpers.get_dependency_from_install_requires`
(module not among the sources) returns the entry of the
`install_requires` list that mentions the given dependency name,
`None` when no entry does. -/
def get_dependency_from_install_requires (installRequires : List String)
    (dep : String) : Option String :=
  installRequires.find? (fun entry => strContains entry dep)

/-- The `setup_py_attributes["install_requires"]["fail_func"]` lambda
(configs lines 68–80): `False` if the underscore spelling is found,
else `False` if the hyphen spelling is found, else `True`. -/
def installRequiresFailFunc (x : List String) : Bool :=
  if (get_dependency_from_install_requires x "resilient_circuits").isSome then false
  else if (get_dependency_from_install_requires x "resilient-circuits").isSome then false
  else true

/-! Section: Package-file checks

`sdk_validate_helpers.py` lines 262–617 (in the sources).  The
`package_files` catalog of `sdk_validate_configs.py` is not among the
sources, so the attribute entries below are modelled from the spec;
the severities follow the spec's §4.2(a)–(f): manifest misses are
WARNING, missing base permissions are CRITICAL, an empty config is
INFO, parse failures and the README codegen/placeholder/screenshot
failures are CRITICAL, remaining TODOs are WARNING. -/

/-- Modelled from the spec: `package_helpers.BASE_PERMISSIONS`, the
"fixed minimum permission set" required by the apikey_permissions.txt
check (module not among the sources). -/
def BASE_PERMISSIONS : List String := ["read_data", "read_function"]

/-- Modelled from the spec: the `package_files["apikey_permissions.txt"]`
catalog entry (catalog not among the sources).  The source formats
`pass_solution` with the filtered permission list (helpers line 361);
the concrete template text below is illustrative only — the theorems
rely on that call shape, never on the template's wording or
non-emptiness. -/
structure ApikeyAttr where
  failName : String
  failMsgFormat : String → String
  failSeverity : Severity
  failSolution : String
  passName : String
  passMsg : String
  passSolutionFormat : String → String

/-- Modelled from the spec: concrete apikey_permissions.txt attributes. -/
def apikeyAttr : ApikeyAttr where
  failName := "apikey_permissions.txt missing base permissions"
  failMsgFormat := fun l => "apikey_permissions.txt is missing the following required permissions: " ++ l
  failSeverity := .critical
  failSolution := "Add the missing base permissions to apikey_permissions.txt"
  passName := "apikey_permissions.txt has base permissions"
  passMsg := "apikey_permissions.txt has at least the base permissions"
  passSolutionFormat := fun l => "Permissions found: " ++ l

/-- The comment-filtered, stripped line list of
`package_files_apikey_pem` (helpers line 339):
`[line.strip() for line in file_contents if not line.startswith("#")]`. -/
def apikeyFileContents (fileContents0 : List String) : List String :=
  (fileContents0.filter (fun line => ¬ pyStartsWith line "#")).map pyStrip

/-- The missing-permission loop of `package_files_apikey_pem` (helpers
lines 342–345): the base permissions not found among the filtered
lines, in catalog order. -/
def missingBasePermissions (fileContents0 : List String) : List String :=
  BASE_PERMISSIONS.filter (fun perm => ¬ (apikeyFileContents fileContents0).contains perm)

/-- `package_files_apikey_pem` (helpers lines 320–362); `fileContents0`
is the line list returned by the `sdk_helpers.read_file` collaborator. -/
def package_files_apikey_pem (attr : ApikeyAttr) (fileContents0 : List String) :
    SDKValidateIssue :=
  if missingBasePermissions fileContents0 ≠ [] then
    { name := attr.failName,
      description := attr.failMsgFormat (pyReprList (missingBasePermissions fileContents0)),
      severity := attr.failSeverity, solution := attr.failSolution }
  else
    { name := attr.passName, description := attr.passMsg,
      severity := .debug,
      solution := attr.passSolutionFormat (pyReprList (apikeyFileContents fileContents0)) }

/-- Modelled from the spec: the `package_files["MANIFEST.in"]` catalog
entry; a template line without a sufficiently similar match "fails
with WARNING listing the missing lines". -/
structure ManifestAttr where
  failName : String
  failMsgFormat : String → String
  failSeverity : Severity
  failSolution : String
  passName : String
  passMsg : String

/-- Modelled from the spec: concrete MANIFEST.in attributes. -/
def manifestAttr : ManifestAttr where
  failName := "MANIFEST.in is missing template lines"
  failMsgFormat := fun l => "MANIFEST.in is missing the following lines: " ++ l
  failSeverity := .warn
  failSolution := "Add the missing lines to MANIFEST.in"
  passName := "MANIFEST.in contains the template lines"
  passMsg := "MANIFEST.in has all the lines of the template"

/-- The template-line loop of `package_files_manifest` (helpers lines
294–300): skip blank template lines; collect the stripped text of each
template line for which `difflib.get_close_matches(line, file_contents,
cutoff=0.90)` (the `closeMatches` collaborator) returns no match. -/
def manifestDiffs (closeMatches : String → List String → List String)
    (fileContents : List String) : List String → List String
  | [] => []
  | line :: rest =>
    if pyStrip line = "" then manifestDiffs closeMatches fileContents rest
    else if closeMatches line fileContents = [] then
      pyStrip line :: manifestDiffs closeMatches fileContents rest
    else
      manifestDiffs closeMatches fileContents rest

/-- `package_files_manifest` (helpers lines 262–317).  `fileRendered`
is the jinja-rendered MANIFEST template text (collaborator output),
`fileContents` the line list of the package's MANIFEST.in, and
`closeMatches` stands for `difflib.get_close_matches(·, ·, cutoff=0.90)`. -/
def package_files_manifest (attr : ManifestAttr)
    (closeMatches : String → List String → List String)
    (fileRendered : String) (fileContents : List String) : SDKValidateIssue :=
  let templateContents := pySplitlinesKeepends fileRendered
  let diffs := manifestDiffs closeMatches fileContents templateContents
  if diffs ≠ [] then
    { name := attr.failName,
      description := attr.failMsgFormat (pyReprList diffs),
      severity := attr.failSeverity, solution := attr.failSolution }
  else
    { name := attr.passName, description := attr.passMsg,
      severity := .debug, solution := "" }

/-- Modelled from the spec: the `package_files["config.py"]` catalog
entry; "empty result is INFO (allowed to be absent), non-empty is a
pass carrying the parsed config as the remediation payload, and a
parse exception is CRITICAL with the exception text". -/
structure ConfigAttr where
  passName : String
  passMsg : String
  passSolutionFormat : String → String
  warnName : String
  warnMsg : String
  warnSeverity : Severity
  warnSolution : String
  failName : String
  failMsgFormat : String → String
  failSeverity : Severity
  failSolution : String

/-- Modelled from the spec: concrete config.py attributes. -/
def configAttr : ConfigAttr where
  passName := "config.py valid"
  passMsg := "config.py parsed successfully"
  passSolutionFormat := fun c => "Config data found: " ++ c
  warnName := "config.py has no config data"
  warnMsg := "No config data found in config.py"
  warnSeverity := .info
  warnSolution := "Add config data to config.py if your app needs any"
  failName := "config.py invalid"
  failMsgFormat := fun m => "config.py failed to parse: " ++ m
  failSeverity := .critical
  failSolution := "Fix the config data in config.py"

/-- `package_files_validate_config_py` (helpers lines 422–474);
`parseResult` is the outcome of the
`package_helpers.get_configs_from_config_py(path)[0]` collaborator —
the parsed config string, or the `SDKException` it raised (carried as
its constructor message; the `str(e)` the code formats is
`sdkExceptionStr`). -/
def package_files_validate_config_py (attr : ConfigAttr)
    (parseResult : Except SDKException String) : SDKValidateIssue :=
  match parseResult with
  | .ok configStr =>
    if configStr ≠ "" then
      { name := attr.passName, description := attr.passMsg,
        severity := .debug,
        -- pass_solution.format("\n\t\t".join(config_str.split("\n")))
        solution := attr.passSolutionFormat
          (String.intercalate "\n\t\t" (configStr.splitOn "\n")) }
    else
      { name := attr.warnName, description := attr.warnMsg,
        severity := attr.warnSeverity, solution := attr.warnSolution }
  | .error e =>
    -- fail_msg.format(str(e).replace("\n", " "))
    { name := attr.failName,
      description := attr.failMsgFormat (pyReplace (sdkExceptionStr e) "\n" " "),
      severity := attr.failSeverity, solution := attr.failSolution }

/-- Modelled from the spec: the `package_files["customize.py"]` catalog
entry; "success is pass, parse exception is CRITICAL with the error
text truncated to start at its first occurrence of the literal
ERROR". -/
structure CustomizeAttr where
  passName : String
  passMsg : String
  passSolutionFormat : String → String
  failName : String
  failMsgFormat : String → String
  failSeverity : Severity
  failSolution : String

/-- Modelled from the spec: concrete customize.py attributes; the fail
description carries the truncated error text. -/
def customizeAttr : CustomizeAttr where
  passName := "customize.py valid"
  passMsg := "ImportDefinition found and parsed from customize.py"
  passSolutionFormat := fun d => "ImportDefinition found: " ++ d
  failName := "customize.py invalid"
  failMsgFormat := fun m => m
  failSeverity := .critical
  failSolution := "Reload the code generation for customize.py"

/-- `package_files_validate_customize_py` (helpers lines 476–520);
`importDefResult` is the outcome of the
`package_helpers.get_import_definition_from_customize_py` collaborator
(the import definition rendered as a string, or the `SDKException` it
raised, carried as its constructor message; the `str(e)` the code
reads is `sdkExceptionStr`).  The except-branch computes
`message[message.index("ERROR"):]`; Python's `str.index` raises
`ValueError` when `"ERROR"` does not occur, so the embedding keeps
that error path for fidelity — it is unreachable because
`sdkExceptionStr` always begins with "ERROR: ". -/
def package_files_validate_customize_py (attr : CustomizeAttr)
    (importDefResult : Except SDKException String) :
    Except PyValueError SDKValidateIssue :=
  match importDefResult with
  | .ok importDef =>
    .ok { name := attr.passName, description := attr.passMsg,
          severity := .debug, solution := attr.passSolutionFormat importDef }
  | .error e =>
    -- message = str(e).replace("\n", " "); message = message[message.index("ERROR"):]
    let message := pyReplace (sdkExceptionStr e) "\n" " "
    match pyFindList "ERROR".toList message.toList with
    | none => .error "substring not found"
    | some i =>
      .ok { name := attr.failName,
            description := attr.failMsgFormat (pySliceFrom message (i : Int)),
            severity := attr.failSeverity, solution := attr.failSolution }

/-- Modelled from the spec: the `package_files["README.md"]` catalog
entry; severities per spec §4.2(f): codegen-template match CRITICAL,
leftover placeholder CRITICAL, leftover TODO WARNING, invalid
screenshot links CRITICAL (the screenshots description text follows
the repository's own test expectation "Cannot find the following
screenshot(s) referenced in the README"). -/
structure ReadmeAttr where
  failCodegenName : String
  failCodegenMsg : String
  failCodegenSeverity : Severity
  failCodegenSolutionFormat : String → String
  failPlaceholderName : String
  failPlaceholderMsgFormat : String → String
  failPlaceholderSeverity : Severity
  failPlaceholderSolutionFormat : String → String
  failTodoName : String
  failTodoMsg : String
  failTodoSeverity : Severity
  failTodoSolution : String
  failScreenshotsName : String
  failScreenshotsMsgFormat : String → String
  failScreenshotsSeverity : Severity
  failScreenshotsSolution : String
  passName : String
  passMsg : String
  passSolution : String

/-- Modelled from the spec: concrete README.md attributes. -/
def readmeAttr : ReadmeAttr where
  failCodegenName := "README.md is still the codegen template"
  failCodegenMsg := "README.md is unchanged since codegen ran; docgen has not been run"
  failCodegenSeverity := .critical
  failCodegenSolutionFormat := fun p => "Run docgen on the package at " ++ p
  failPlaceholderName := "README.md detected placeholder"
  failPlaceholderMsgFormat := fun s => "README.md still contains the '" ++ s ++ "' placeholder"
  failPlaceholderSeverity := .critical
  failPlaceholderSolutionFormat := fun s => "Replace the '" ++ s ++ "' placeholder with your documentation"
  failTodoName := "README.md detected TODO"
  failTodoMsg := "README.md still contains TODOs"
  failTodoSeverity := .warn
  failTodoSolution := "Complete and remove the TODOs in README.md"
  failScreenshotsName := "README.md has invalid screenshots"
  failScreenshotsMsgFormat := fun l => "Cannot find the following screenshot(s) referenced in the README: " ++ l
  failScreenshotsSeverity := .critical
  failScreenshotsSolution := "Make sure all screenshots referenced in README.md exist under the package"
  passName := "README.md valid"
  passMsg := "README.md passed the automated checks"
  passSolution := "Manually validate README.md for correctness"

/-- `package_files_validate_readme` (helpers lines 522–617).
Collaborators as inputs: `ratioEqOne a b` stands for
`difflib.SequenceMatcher(None, a, b).ratio() == 1.0` (by difflib's
documented contract the ratio is 1.0 when the sequences are
identical); `parsePaths` is
`package_helpers.parse_file_paths_from_readme`; `readable p` records
whether `sdk_helpers.validate_file_paths(os.R_OK, p)` succeeds;
`codegenRendered` is the jinja-rendered codegen README template.  As
in the source, the malformed-link branch builds
`err_msg[err_msg.index("ERROR: ")+len("ERROR: "):]` from
`str(e) = sdkExceptionStr e` and returns the two-argument
`SDKValidateIssue("README.md link syntax error", err_msg)`, whose
severity and solution come from the constructor defaults; the
`str.index` `ValueError` path is kept for fidelity though
`sdkExceptionStr` always contains `"ERROR: "`. -/
def package_files_validate_readme (attr : ReadmeAttr)
    (ratioEqOne : List String → List String → Bool)
    (parsePaths : List String → Except SDKException (List String))
    (readable : String → Bool)
    (pathPackage : String) (fileContents : List String)
    (codegenRendered : String) : Except PyValueError SDKValidateIssue :=
  let templateContents := pySplitlinesKeepends codegenRendered
  if ratioEqOne fileContents templateContents then
    .ok { name := attr.failCodegenName, description := attr.failCodegenMsg,
          severity := attr.failCodegenSeverity,
          solution := attr.failCodegenSolutionFormat pathPackage }
  else if fileContents.any (fun line =>
      strContains line ("<!-- " ++ DOCGEN_PLACEHOLDER_STRING ++ " -->")) then
    .ok { name := attr.failPlaceholderName,
          description := attr.failPlaceholderMsgFormat DOCGEN_PLACEHOLDER_STRING,
          severity := attr.failPlaceholderSeverity,
          solution := attr.failPlaceholderSolutionFormat DOCGEN_PLACEHOLDER_STRING }
  else if fileContents.any (fun line => strContains line "TODO") then
    .ok { name := attr.failTodoName, description := attr.failTodoMsg,
          severity := attr.failTodoSeverity, solution := attr.failTodoSolution }
  else
    match parsePaths fileContents with
    | .error e =>
      -- err_msg = str(e).replace("\n", " ")
      let errMsg := pyReplace (sdkExceptionStr e) "\n" " "
      match pyFindList "ERROR: ".toList errMsg.toList with
      | none => .error "substring not found"
      | some i =>
        .ok { name := "README.md link syntax error",
              description := pySliceFrom errMsg ((i : Int) + ("ERROR: ".toList.length : Int)) }
    | .ok screenshotPaths =>
      let invalidPaths := screenshotPaths.filter
        (fun p => ¬ readable (osPathJoin pathPackage p))
      if invalidPaths ≠ [] then
        .ok { name := attr.failScreenshotsName,
              description := attr.failScreenshotsMsgFormat (pyReprList invalidPaths),
              severity := attr.failScreenshotsSeverity,
              solution := attr.failScreenshotsSolution }
      else
        .ok { name := attr.passName, description := attr.passMsg,
              severity := .debug, solution := attr.passSolution }

/-! Section: Spec-side descriptions of the selftest output parsing -/

/-- The text of `s` between its last opening curly brace and its last
closing curly brace (the slice the exit-code-1 branch takes). -/
def textBetweenLastBraces (s : String) : String :=
  pySlice s (pyRfind s "\x7b" + 1) (pyRfind s "\x7d")

/-- The text of `s` from the last occurrence of `"ERROR"` to the end
(the slice `s[s.rfind("ERROR"):]`). -/
def textFromLastERROR (s : String) : String :=
  pySliceFrom s (pyRfind s "ERROR")

/-- The cleanup the selftest-run check applies to extracted details:
`.strip().replace("\n", ". ").replace("\t", " ")`. -/
def cleanedDetails (s : String) : String :=
  pyReplace (pyReplace (pyStrip s) "\n" ". ") "\t" " "

/-! Section: Characterization lemmas for the selftest run -/

lemma selftest_run_rc1 (attr : SelftestRunAttr) (pkg : String)
    (cfg : Option String) (d : String) :
    (selftest_run_selftestpy attr pkg cfg 1 d).2 =
      .ok (false, { name := attr.failName,
                    description := attr.failMsgFormat pkg (cleanedDetails (textBetweenLastBraces d)),
                    severity := attr.failSeverity, solution := attr.failSolution }) := by
  simp [selftest_run_selftestpy, cleanedDetails, textBetweenLastBraces]

lemma selftest_run_rcgt1 (attr : SelftestRunAttr) (pkg : String)
    (cfg : Option String) (rc : Int) (d : String) (h : rc > 1) :
    (selftest_run_selftestpy attr pkg cfg rc d).2 =
      .ok (false, { name := attr.errorName,
                    description := attr.errorMsgFormat (cleanedDetails (textFromLastERROR d)),
                    severity := attr.errorSeverity, solution := "" }) := by
  have h1 : rc ≠ 1 := by omega
  simp [selftest_run_selftestpy, h1, h, cleanedDetails, textFromLastERROR]

lemma selftest_run_rc0_marker (attr : SelftestRunAttr) (pkg : String)
    (cfg : Option String) (d : String)
    (h : strContains d "'state': 'unimplemented'" = true) :
    (selftest_run_selftestpy attr pkg cfg 0 d).2 =
      .ok (false, { name := attr.missingName,
                    description := attr.missingMsgFormat pkg,
                    severity := attr.missingSeverity, solution := attr.missingSolution }) := by
  have hfind : pyFind d "'state': 'unimplemented'" ≠ -1 := by
    unfold pyFind
    unfold strContains at h
    cases hf : pyFindList "'state': 'unimplemented'".toList d.toList with
    | none => rw [hf] at h; simp at h
    | some i => simp [hf]
  simp [selftest_run_selftestpy, hfind]

lemma selftest_run_rc0_pass (attr : SelftestRunAttr) (pkg : String)
    (cfg : Option String) (d : String)
    (h : strContains d "'state': 'unimplemented'" = false) :
    (selftest_run_selftestpy attr pkg cfg 0 d).2 =
      .ok (true, { name := attr.passName,
                   description := attr.passMsgFormat pkg,
                   severity := .debug, solution := "" }) := by
  have hfind : pyFind d "'state': 'unimplemented'" = -1 := by
    unfold pyFind
    unfold strContains at h
    cases hf : pyFindList "'state': 'unimplemented'".toList d.toList with
    | none => simp
    | some i => rw [hf] at h; simp at h
  simp [selftest_run_selftestpy, hfind]

lemma selftest_run_rc_other (attr : SelftestRunAttr) (pkg : String)
    (cfg : Option String) (rc : Int) (d : String)
    (h0 : rc ≠ 0) (h1 : rc ≠ 1) (hgt : ¬ rc > 1) :
    (selftest_run_selftestpy attr pkg cfg rc d).2 =
      .error ("Unknown error while running 'resilient-circuits selftest -l "
              ++ pyReplace pkg "_" "-" ++ "'") := by
  simp [selftest_run_selftestpy, h0, h1, hgt]

lemma config_py_ok (attr : ConfigAttr) (s : String) :
    package_files_validate_config_py attr (.ok s) =
      if s ≠ "" then
        { name := attr.passName, description := attr.passMsg, severity := .debug,
          solution := attr.passSolutionFormat (String.intercalate "\n\t\t" (s.splitOn "\n")) }
      else
        { name := attr.warnName, description := attr.warnMsg,
          severity := attr.warnSeverity, solution := attr.warnSolution } := rfl

lemma config_py_error (attr : ConfigAttr) (e : SDKException) :
    package_files_validate_config_py attr (.error e) =
      { name := attr.failName,
        description := attr.failMsgFormat (pyReplace (sdkExceptionStr e) "\n" " "),
        severity := attr.failSeverity, solution := attr.failSolution } := rfl

lemma pyReplaceList_singleton (a b : Char) (l : List Char) :
    pyReplaceList [a] [b] l.length l = l.map (fun c => if c = a then b else c) := by
  induction l with
  | nil => rfl
  | cons c cs ih =>
    by_cases hc : c = a
    · subst hc
      simpa [pyReplaceList, List.isPrefixOf] using ih
    · simpa [pyReplaceList, List.isPrefixOf, hc, Ne.symm hc] using ih

/-- Replacing one character by one character is a pointwise map. -/
lemma pyReplace_newline_space (s : String) :
    pyReplace s "\n" " " = ⟨s.toList.map (fun c => if c = '\n' then ' ' else c)⟩ := by
  unfold pyReplace
  rw [show "\n".toList = ['\n'] from rfl, show " ".toList = [' '] from rfl,
    pyReplaceList_singleton]

/-- A substring found at the very start is found first at index 0. -/
lemma pyFindList_zero (sub s : List Char) (h : sub.isPrefixOf s) :
    pyFindList sub s = some 0 := by
  unfold pyFindList
  rw [List.range_succ_eq_map]
  simp [h]

/-- `str(e)` keeps its "ERROR: " prefix through the newline
replacement, so the first occurrence of "ERROR" is at index 0. -/
lemma sdkExceptionStr_find_zero (e : String) :
    pyFindList "ERROR".toList (pyReplace (sdkExceptionStr e) "\n" " ").toList = some 0 := by
  apply pyFindList_zero
  rw [pyReplace_newline_space]
  have hsplit : (sdkExceptionStr e).toList = "ERROR: ".toList ++ e.toList := by
    unfold sdkExceptionStr
    exact String.data_append _ _
  rw [show String.toList ⟨(sdkExceptionStr e).toList.map (fun c => if c = '\n' then ' ' else c)⟩
        = (sdkExceptionStr e).toList.map (fun c => if c = '\n' then ' ' else c) from rfl,
    hsplit, List.map_append,
    show "ERROR: ".toList.map (fun c => if c = '\n' then ' ' else c) = "ERROR: ".toList by decide]
  exact List.isPrefixOf_iff_prefix.mpr
    ((show "ERROR".toList <+: "ERROR: ".toList by decide).trans (List.prefix_append _ _))

/-- Python slice `s[0:]` is `s` itself. -/
lemma pySliceFrom_zero (s : String) : pySliceFrom s 0 = s := by
  cases s with
  | mk data =>
    unfold pySliceFrom pySlice pySliceList
    have hn : ¬ ((data.length : Int) < 0) := by omega
    simp [hn, String.length, List.take_length]

/-! Section: Claims -/

/-- Claim C2, counterexample:  The claim fails on the code in two places.
First, for exit code `2` and stderr `"ERROR: a\nb"` the resulting
CRITICAL Issue's description does not contain the original error text
from the last `"ERROR"` to the end verbatim (the code strips the
segment and replaces newlines with `". "` and tabs with `" "`).
Second, for exit code `0` with the marker `unimplemented` present in
the output the check still passes: the code only fails on the full
literal `"'state': 'unimplemented'"`. -/
theorem C2_selftest_classification_counterexample :
    ((selftest_run_selftestpy selftestRunAttr "pkg" none 2 "ERROR: a\nb").2 =
      .ok (false, { name := "selftest.py failed",
                    description := "While running selftest.py, 'resilient-circuits' failed to connect to server. Details: ERROR: a. b",
                    severity := .critical, solution := "" })) ∧
    strContains "While running selftest.py, 'resilient-circuits' failed to connect to server. Details: ERROR: a. b"
      "ERROR: a\nb" = false ∧
    ((selftest_run_selftestpy selftestRunAttr "pkg" none 0 "selftest output: unimplemented").2 =
      .ok (true, { name := "selftest.py success",
                   description := "selftest.py successfully ran for 'pkg'",
                   severity := .debug, solution := "" })) ∧
    strContains "selftest output: unimplemented" "unimplemented" = true := by
  refine ⟨rfl, by decide, rfl, by decide⟩

/-- Claim C2, amended:  `selftest_run_selftestpy` classifies the
subprocess outcome as: exit code 1 ⇒ `(False, CRITICAL)` with the
description embedding the text between the last opening curly brace
and the last closing curly brace of stderr after cleanup (strip, newlines → `". "`, tabs →
`" "`); exit code 0 ⇒ CRITICAL "not implemented" exactly when the full
literal `"'state': 'unimplemented'"` occurs in the output, and a
`(True, DEBUG)` pass otherwise; exit code > 1 ⇒ `(False, CRITICAL)`
with the description embedding the text from the last occurrence of
`"ERROR"` to the end of the output after the same cleanup (so verbatim
only when that segment needs no cleanup). -/
theorem C2_selftest_classification (pkg : String) (cfg : Option String)
    (rc : Int) (d : String) :
    (rc = 1 → (selftest_run_selftestpy selftestRunAttr pkg cfg rc d).2 =
      .ok (false, { name := "selftest.py failed",
                    description := "selftest.py failed  for " ++ pkg ++ ". Details: "
                      ++ cleanedDetails (textBetweenLastBraces d),
                    severity := .critical,
                    solution := "Please check your configuration values and make sure selftest.py is properly implemented" })) ∧
    (rc = 0 → strContains d "'state': 'unimplemented'" = true →
      (selftest_run_selftestpy selftestRunAttr pkg cfg rc d).2 =
      .ok (false, { name := "selftest.py not implemented",
                    description := "selftest.py not implemented for " ++ pkg,
                    severity := .critical,
                    solution := "selftest.py is a recommended check that should be implemented. More info <TODO: LINK>" })) ∧
    (rc = 0 → strContains d "'state': 'unimplemented'" = false →
      (selftest_run_selftestpy selftestRunAttr pkg cfg rc d).2 =
      .ok (true, { name := "selftest.py success",
                   description := "selftest.py successfully ran for '" ++ pkg ++ "'",
                   severity := .debug, solution := "" })) ∧
    (rc > 1 → (selftest_run_selftestpy selftestRunAttr pkg cfg rc d).2 =
      .ok (false, { name := "selftest.py failed",
                    description := "While running selftest.py, 'resilient-circuits' failed to connect to server. Details: "
                      ++ cleanedDetails (textFromLastERROR d),
                    severity := .critical, solution := "" })) := by
  refine ⟨?_, ?_, ?_, ?_⟩
  · intro h; subst h
    exact selftest_run_rc1 selftestRunAttr pkg cfg d
  · intro h hm; subst h
    exact selftest_run_rc0_marker selftestRunAttr pkg cfg d hm
  · intro h hm; subst h
    exact selftest_run_rc0_pass selftestRunAttr pkg cfg d hm
  · intro h
    exact selftest_run_rcgt1 selftestRunAttr pkg cfg rc d h

set_option maxRecDepth 8000 in
/-- Witness for C2 (amended): the exit-code-1 case evaluated at a
concrete stderr text. -/
theorem C2_selftest_classification_witness :
    (selftest_run_selftestpy selftestRunAttr "pkg" none 1
        "failure \x7b'state': 'failure', 'reason': 'failed for test reasons'\x7d and more text here...").2 =
      .ok (false, { name := "selftest.py failed",
                    description := "selftest.py failed  for pkg. Details: 'state': 'failure', 'reason': 'failed for test reasons'",
                    severity := .critical,
                    solution := "Please check your configuration values and make sure selftest.py is properly implemented" }) := by
  have h := (C2_selftest_classification "pkg" none 1
    "failure \x7b'state': 'failure', 'reason': 'failed for test reasons'\x7d and more text here...").1 rfl
  exact h

/-- Claim C8:  Any selftest outcome outside the documented set is raised
as an `SDKException` and never converted into an Issue: in
`selftest_run_selftestpy` every exit code that is not 0, not 1 and not
greater than 1 raises, and in
`selftest_validate_resilient_circuits_installed` a version-lookup
state that is neither installed-at-or-above-minimum, nor
installed-below-minimum, nor not-installed raises. -/
theorem C8_unexpected_state_raises :
    (∀ (pkg : String) (cfg : Option String) (rc : Int) (d : String),
      rc ≠ 0 → rc ≠ 1 → ¬ rc > 1 →
      (selftest_run_selftestpy selftestRunAttr pkg cfg rc d).2 =
        .error ("Unknown error while running 'resilient-circuits selftest -l "
                ++ pyReplace pkg "_" "-" ++ "'")) ∧
    (∀ lookup : VersionLookup,
      lookup.version.isSome = true → lookup.geMin = false → lookup.ltMin = false →
      selftest_validate_resilient_circuits_installed selftestCircuitsAttr lookup =
        .error ("Unknown error while checking for " ++ CIRCUITS_PACKAGE_NAME)) := by
  constructor
  · intro pkg cfg rc d h0 h1 hgt
    exact selftest_run_rc_other selftestRunAttr pkg cfg rc d h0 h1 hgt
  · intro lookup hv hge hlt
    simp [selftest_validate_resilient_circuits_installed, hv, hge, hlt]

/-- Witness for C8: a negative exit code (subprocess killed by a
signal) raises, and so does an installed-but-incomparable version
state. -/
theorem C8_unexpected_state_raises_witness :
    (selftest_run_selftestpy selftestRunAttr "my_pkg" none (-9) "x").2 =
      .error "Unknown error while running 'resilient-circuits selftest -l my-pkg'" ∧
    selftest_validate_resilient_circuits_installed selftestCircuitsAttr
      ⟨some "42.0.0", false, false⟩ =
      .error "Unknown error while checking for resilient-circuits" := by
  constructor
  · exact C8_unexpected_state_raises.1 "my_pkg" none (-9) "x"
      (by decide) (by decide) (by decide)
  · exact C8_unexpected_state_raises.2 ⟨some "42.0.0", false, false⟩ rfl rfl rfl

/-- Claim C9:  The only ambient state `selftest_run_selftestpy` mutates
is the `APP_CONFIG_FILE` environment variable: it is set to the
provided app-config path (empty string when none is given) before the
subprocess is launched, and set to the empty string once the
subprocess has exited; the embedding of every check is otherwise a
pure function of its inputs, so no file of the target package is
modified. -/
theorem C9_env_var_frame (pkg : String) (cfg : Option String) (rc : Int)
    (d : String) :
    (selftest_run_selftestpy selftestRunAttr pkg cfg rc d).1 =
      [(ENV_VAR_APP_CONFIG_FILE, cfg.getD ""), (ENV_VAR_APP_CONFIG_FILE, "")] := by
  cases cfg with
  | none => rfl
  | some p => by_cases hp : p = "" <;> simp [selftest_run_selftestpy, hp]

/-- Claim C10:  Every value returned by the four selftest validation
helpers is a pair `(success, issue)` with `success = True` exactly
when the issue's severity is the DEBUG/pass level, and every non-pass
pair carries the rule's configured CRITICAL severity. -/
theorem C10_success_iff_debug :
    (∀ (lookup : VersionLookup) (b : Bool) (i : SDKValidateIssue),
      selftest_validate_resilient_circuits_installed selftestCircuitsAttr lookup = .ok (b, i) →
      (b = true ↔ i.severity = .debug) ∧ (b = false → i.severity = .critical)) ∧
    (∀ (pkg path : String) (installed : Bool),
      ((selftest_validate_package_installed selftestPackageAttr pkg path installed).1 = true ↔
        (selftest_validate_package_installed selftestPackageAttr pkg path installed).2.severity = .debug) ∧
      ((selftest_validate_package_installed selftestPackageAttr pkg path installed).1 = false →
        (selftest_validate_package_installed selftestPackageAttr pkg path installed).2.severity = .critical)) ∧
    (∀ (path : String) (readable : Bool),
      ((selftest_validate_selftestpy_file_exists selftestFileAttr path readable).1 = true ↔
        (selftest_validate_selftestpy_file_exists selftestFileAttr path readable).2.severity = .debug) ∧
      ((selftest_validate_selftestpy_file_exists selftestFileAttr path readable).1 = false →
        (selftest_validate_selftestpy_file_exists selftestFileAttr path readable).2.severity = .critical)) ∧
    (∀ (pkg : String) (cfg : Option String) (rc : Int) (d : String)
        (b : Bool) (i : SDKValidateIssue),
      (selftest_run_selftestpy selftestRunAttr pkg cfg rc d).2 = .ok (b, i) →
      (b = true ↔ i.severity = .debug) ∧ (b = false → i.severity = .critical)) := by
  refine ⟨?_, ?_, ?_, ?_⟩
  · intro lookup b i h
    unfold selftest_validate_resilient_circuits_installed at h
    split at h
    · simp only [Except.ok.injEq, Prod.mk.injEq] at h
      obtain ⟨hb, hi⟩ := h
      subst hb; subst hi
      simp
    · split at h
      · simp only [Except.ok.injEq, Prod.mk.injEq] at h
        obtain ⟨hb, hi⟩ := h
        subst hb; subst hi
        simp [selftestCircuitsAttr]
      · split at h
        · simp only [Except.ok.injEq, Prod.mk.injEq] at h
          obtain ⟨hb, hi⟩ := h
          subst hb; subst hi
          simp [selftestCircuitsAttr]
        · simp at h
  · intro pkg path installed
    unfold selftest_validate_package_installed
    by_cases hi : installed <;> simp [hi, selftestPackageAttr]
  · intro path readable
    unfold selftest_validate_selftestpy_file_exists
    by_cases hr : readable <;> simp [hr, selftestFileAttr]
  · intro pkg cfg rc d b i h
    by_cases h1 : rc = 1
    · subst h1
      rw [selftest_run_rc1] at h
      simp only [Except.ok.injEq, Prod.mk.injEq] at h
      obtain ⟨hb, hi⟩ := h
      subst hb; subst hi
      simp [selftestRunAttr]
    · by_cases hgt : rc > 1
      · rw [selftest_run_rcgt1 selftestRunAttr pkg cfg rc d hgt] at h
        simp only [Except.ok.injEq, Prod.mk.injEq] at h
        obtain ⟨hb, hi⟩ := h
        subst hb; subst hi
        simp [selftestRunAttr]
      · by_cases h0 : rc = 0
        · subst h0
          by_cases hm : strContains d "'state': 'unimplemented'" = true
          · rw [selftest_run_rc0_marker selftestRunAttr pkg cfg d hm] at h
            simp only [Except.ok.injEq, Prod.mk.injEq] at h
            obtain ⟨hb, hi⟩ := h
            subst hb; subst hi
            simp [selftestRunAttr]
          · rw [selftest_run_rc0_pass selftestRunAttr pkg cfg d
                (by simpa using hm)] at h
            simp only [Except.ok.injEq, Prod.mk.injEq] at h
            obtain ⟨hb, hi⟩ := h
            subst hb; subst hi
            simp
        · rw [selftest_run_rc_other selftestRunAttr pkg cfg rc d h0 h1 hgt] at h
          simp at h

lemma append_ne_empty_left (a s : String) (ha : a ≠ "") : a ++ s ≠ "" := by
  intro h
  have hdata : (a ++ s).data = ("" : String).data := congrArg String.data h
  rw [String.data_append] at hdata
  have ha' : a.data = [] := (List.append_eq_nil.mp hdata).1
  exact ha (by cases a; cases s; simp_all)

/-- Claim C1, counterexample:  A pass Issue with a non-empty
remediation/solution: the config.py check's pass Issue has severity
DEBUG but carries the parsed config payload in its solution field,
refuting "a pass ... always ... an empty remediation/solution
string". -/
theorem C1_pass_issue_counterexample :
    (package_files_validate_config_py configAttr (.ok "[fake_config]\nfake=fake")).severity
      = Severity.debug ∧
    (package_files_validate_config_py configAttr (.ok "[fake_config]\nfake=fake")).solution
      ≠ "" := by
  refine ⟨rfl, by decide⟩

/-- Claim C1, amended: every pass Issue has severity DEBUG.  The
selftest helpers' pass Issues have empty solution strings, but the
config.py pass Issue carries the parsed config as its solution
(non-empty), and the apikey-permissions pass Issue's solution is the
rule's pass_solution template formatted with the permission list
rather than the empty string.  Non-pass Issues of the cited checks
carry the rule's configured non-empty remediation wherever one is
configured (the three selftest precondition helpers, selftest failure
and not-implemented, apikey missing permissions, config.py empty or
unparsable); the exit>1 connection-error Issue is the one non-pass
Issue constructed without any solution argument (source lines
234-238), so it carries no configured remediation and this theorem is
silent about it. -/
theorem C1_pass_issue_invariant :
    (∀ (lookup : VersionLookup) (b : Bool) (i : SDKValidateIssue),
      selftest_validate_resilient_circuits_installed selftestCircuitsAttr lookup = .ok (b, i) →
      (b = true → i.severity = .debug ∧ i.solution = "") ∧
      (b = false → i.solution ≠ "")) ∧
    (∀ (pkg path : String) (installed : Bool),
      ((selftest_validate_package_installed selftestPackageAttr pkg path installed).1 = true →
        (selftest_validate_package_installed selftestPackageAttr pkg path installed).2.severity = .debug ∧
        (selftest_validate_package_installed selftestPackageAttr pkg path installed).2.solution = "") ∧
      ((selftest_validate_package_installed selftestPackageAttr pkg path installed).1 = false →
        (selftest_validate_package_installed selftestPackageAttr pkg path installed).2.solution ≠ "")) ∧
    (∀ (path : String) (readable : Bool),
      ((selftest_validate_selftestpy_file_exists selftestFileAttr path readable).1 = true →
        (selftest_validate_selftestpy_file_exists selftestFileAttr path readable).2.severity = .debug ∧
        (selftest_validate_selftestpy_file_exists selftestFileAttr path readable).2.solution = "") ∧
      ((selftest_validate_selftestpy_file_exists selftestFileAttr path readable).1 = false →
        (selftest_validate_selftestpy_file_exists selftestFileAttr path readable).2.solution ≠ "")) ∧
    (∀ (pkg : String) (cfg : Option String) (rc : Int) (d : String)
        (b : Bool) (i : SDKValidateIssue),
      (selftest_run_selftestpy selftestRunAttr pkg cfg rc d).2 = .ok (b, i) →
      (b = true → i.severity = .debug ∧ i.solution = "") ∧
      (rc = 1 → i.solution ≠ "") ∧
      (rc = 0 → b = false → i.solution ≠ "")) ∧
    (∀ contents : List String,
      ((package_files_apikey_pem apikeyAttr contents).severity = .debug →
        (package_files_apikey_pem apikeyAttr contents).solution =
          apikeyAttr.passSolutionFormat (pyReprList (apikeyFileContents contents))) ∧
      ((package_files_apikey_pem apikeyAttr contents).severity ≠ .debug →
        (package_files_apikey_pem apikeyAttr contents).solution = apikeyAttr.failSolution ∧
        (package_files_apikey_pem apikeyAttr contents).solution ≠ "")) ∧
    (∀ s : String, s ≠ "" →
      (package_files_validate_config_py configAttr (.ok s)).severity = .debug ∧
      (package_files_validate_config_py configAttr (.ok s)).solution =
        configAttr.passSolutionFormat (String.intercalate "\n\t\t" (s.splitOn "\n")) ∧
      (package_files_validate_config_py configAttr (.ok s)).solution ≠ "") ∧
    (∀ r : Except SDKException String,
      (package_files_validate_config_py configAttr r).severity ≠ .debug →
      (package_files_validate_config_py configAttr r).solution ≠ "") := by
  refine ⟨?_, ?_, ?_, ?_, ?_, ?_, ?_⟩
  · intro lookup b i h
    unfold selftest_validate_resilient_circuits_installed at h
    split at h
    · simp only [Except.ok.injEq, Prod.mk.injEq] at h
      obtain ⟨hb, hi⟩ := h
      subst hb; subst hi
      exact ⟨fun _ => ⟨rfl, rfl⟩, fun hb => by simp at hb⟩
    · split at h
      · simp only [Except.ok.injEq, Prod.mk.injEq] at h
        obtain ⟨hb, hi⟩ := h
        subst hb; subst hi
        exact ⟨fun hb => by simp at hb,
          fun _ => show selftestCircuitsAttr.failSolution ≠ "" by decide⟩
      · split at h
        · simp only [Except.ok.injEq, Prod.mk.injEq] at h
          obtain ⟨hb, hi⟩ := h
          subst hb; subst hi
          exact ⟨fun hb => by simp at hb,
            fun _ => show selftestCircuitsAttr.missingSolution ≠ "" by decide⟩
        · simp at h
  · intro pkg path installed
    cases installed with
    | true =>
      exact ⟨fun _ => ⟨rfl, rfl⟩,
        fun hb => by unfold selftest_validate_package_installed at hb; simp at hb⟩
    | false =>
      refine ⟨fun hb => ?_, fun _ => ?_⟩
      · unfold selftest_validate_package_installed at hb
        simp at hb
      · show selftestPackageAttr.solutionFormat pkg path ≠ ""
        exact append_ne_empty_left _ _ (append_ne_empty_left _ _
          (append_ne_empty_left _ _ (append_ne_empty_left _ _ (by decide))))
  · intro path readable
    cases readable with
    | true =>
      exact ⟨fun _ => ⟨rfl, rfl⟩,
        fun hb => by unfold selftest_validate_selftestpy_file_exists at hb; simp at hb⟩
    | false =>
      refine ⟨fun hb => ?_, fun _ => show selftestFileAttr.solution ≠ "" by decide⟩
      unfold selftest_validate_selftestpy_file_exists at hb
      simp at hb
  · intro pkg cfg rc d b i h
    by_cases h1 : rc = 1
    · subst h1
      rw [selftest_run_rc1] at h
      simp only [Except.ok.injEq, Prod.mk.injEq] at h
      obtain ⟨hb, hi⟩ := h
      subst hb; subst hi
      exact ⟨fun hb => by simp at hb,
        fun _ => show selftestRunAttr.failSolution ≠ "" by decide,
        fun h0 => absurd h0 (by decide)⟩
    · by_cases hgt : rc > 1
      · rw [selftest_run_rcgt1 selftestRunAttr pkg cfg rc d hgt] at h
        simp only [Except.ok.injEq, Prod.mk.injEq] at h
        obtain ⟨hb, hi⟩ := h
        subst hb; subst hi
        exact ⟨fun hb => by simp at hb, fun hrc => absurd hrc h1,
          fun h0 => absurd h0 (by omega)⟩
      · by_cases h0 : rc = 0
        · subst h0
          by_cases hm : strContains d "'state': 'unimplemented'" = true
          · rw [selftest_run_rc0_marker selftestRunAttr pkg cfg d hm] at h
            simp only [Except.ok.injEq, Prod.mk.injEq] at h
            obtain ⟨hb, hi⟩ := h
            subst hb; subst hi
            exact ⟨fun hb => by simp at hb, fun hrc => absurd hrc h1,
              fun _ _ => show selftestRunAttr.missingSolution ≠ "" by decide⟩
          · rw [selftest_run_rc0_pass selftestRunAttr pkg cfg d (by simpa using hm)] at h
            simp only [Except.ok.injEq, Prod.mk.injEq] at h
            obtain ⟨hb, hi⟩ := h
            subst hb; subst hi
            exact ⟨fun _ => ⟨rfl, rfl⟩, fun hrc => absurd hrc h1,
              fun _ hb => by simp at hb⟩
        · rw [selftest_run_rc_other selftestRunAttr pkg cfg rc d h0 h1 hgt] at h
          simp at h
  · intro contents
    unfold package_files_apikey_pem
    by_cases hm : missingBasePermissions contents ≠ []
    · rw [if_pos hm]
      refine ⟨fun h => ?_, fun _ => ⟨rfl, show apikeyAttr.failSolution ≠ "" by decide⟩⟩
      simp [apikeyAttr] at h
    · rw [if_neg hm]
      exact ⟨fun _ => rfl, fun h => absurd rfl h⟩
  · intro s hs
    rw [config_py_ok, if_pos hs]
    exact ⟨rfl, rfl, append_ne_empty_left _ _ (by decide)⟩
  · intro r h
    cases r with
    | error e =>
      rw [config_py_error]
      show configAttr.failSolution ≠ ""
      decide
    | ok s =>
      by_cases hs : s ≠ ""
      · rw [config_py_ok, if_pos hs] at h
        exact absurd rfl h
      · rw [config_py_ok, if_neg hs]
        show configAttr.warnSolution ≠ ""
        decide

/-- Witness for C1 (amended): the config.py pass Issue at a concrete
parsed config is DEBUG yet carries a non-empty solution. -/
theorem C1_pass_issue_invariant_witness :
    (package_files_validate_config_py configAttr (.ok "[a]\nb=c")).severity = Severity.debug ∧
    (package_files_validate_config_py configAttr (.ok "[a]\nb=c")).solution ≠ "" := by
  have h := C1_pass_issue_invariant.2.2.2.2.2.1 "[a]\nb=c" (by decide)
  exact ⟨h.1, h.2.2⟩

/-- Claim C3:  The `python_requires` fail-predicate: for a specifier
parsed as `(X, Y)` (form `">=X.Y"`) it returns exactly whether
`(X, Y)` is lexicographically below the minimum supported version
`(3, 6)` — in particular, `false` at or above the minimum and `true`
below it — and for EVERY specifier not using the `>=` comparator
(second conjunct, universally quantified; `"<2"` and `"<=2.7"` are
sample instances) it raises the parse error instead of returning a
boolean. -/
theorem C3_python_requires_predicate :
    (∀ (s : String) (x y : Nat),
      get_required_python_version s = .ok (x, y) →
      pythonRequiresFailFunc s = .ok (pyTupleLt (x, y) MIN_SUPPORTED_PY_VERSION)) ∧
    (∀ s : String, pyStartsWith s ">=" = false →
      pythonRequiresFailFunc s =
        .error "ERROR: could not parse the python_requires version") ∧
    pythonRequiresFailFunc ">=3.6" = .ok false ∧
    pythonRequiresFailFunc ">=3.11" = .ok false ∧
    pythonRequiresFailFunc ">=4.0" = .ok false ∧
    pythonRequiresFailFunc ">=2.7" = .ok true ∧
    pythonRequiresFailFunc ">=3.5" = .ok true ∧
    pythonRequiresFailFunc "<2" = .error "ERROR: could not parse the python_requires version" ∧
    pythonRequiresFailFunc "<=2.7" = .error "ERROR: could not parse the python_requires version" := by
  refine ⟨?_, ?_, rfl, rfl, rfl, rfl, rfl, rfl, rfl⟩
  · intro s x y h
    unfold pythonRequiresFailFunc
    rw [h]
    rfl
  · intro s h
    simp [pythonRequiresFailFunc, get_required_python_version, h, Except.map]

/-- Witness for C3: the predicate evaluated at the minimum supported
version itself. -/
theorem C3_python_requires_predicate_witness :
    pythonRequiresFailFunc ">=3.6" = .ok (pyTupleLt (3, 6) MIN_SUPPORTED_PY_VERSION) :=
  C3_python_requires_predicate.1 ">=3.6" 3 6 rfl

/-- Claim C7:  The `install_requires` fail-predicate returns `false`
(no failure) whenever some entry of the list mentions the runtime
dependency under either spelling (`resilient_circuits` or
`resilient-circuits`), and `true` when no entry mentions either. -/
theorem C7_install_requires_predicate :
    (∀ l : List String,
      (∃ e ∈ l, strContains e "resilient_circuits" = true ∨
                strContains e "resilient-circuits" = true) →
      installRequiresFailFunc l = false) ∧
    (∀ l : List String,
      (∀ e ∈ l, strContains e "resilient_circuits" = false ∧
                strContains e "resilient-circuits" = false) →
      installRequiresFailFunc l = true) := by
  constructor
  · intro l h
    obtain ⟨e, he, hcase⟩ := h
    unfold installRequiresFailFunc get_dependency_from_install_requires
    rcases hcase with hu | hh
    · have hsome : (l.find? (fun entry => strContains entry "resilient_circuits")).isSome := by
        rw [List.find?_isSome]
        exact ⟨e, he, hu⟩
      simp [hsome]
    · by_cases hu2 : (l.find? (fun entry => strContains entry "resilient_circuits")).isSome
      · simp [hu2]
      · have hsome : (l.find? (fun entry => strContains entry "resilient-circuits")).isSome := by
          rw [List.find?_isSome]
          exact ⟨e, he, hh⟩
        simp [hu2, hsome]
  · intro l h
    have h1 : l.find? (fun entry => strContains entry "resilient_circuits") = none := by
      rw [List.find?_eq_none]
      intro e he
      simp [(h e he).1]
    have h2 : l.find? (fun entry => strContains entry "resilient-circuits") = none := by
      rw [List.find?_eq_none]
      intro e he
      simp [(h e he).2]
    simp [installRequiresFailFunc, get_dependency_from_install_requires, h1, h2]

/-- Witness for C7: a list carrying the hyphen spelling does not fail. -/
theorem C7_install_requires_predicate_witness :
    installRequiresFailFunc ["requests", "resilient-circuits>=43.0.0"] = false :=
  C7_install_requires_predicate.1 ["requests", "resilient-circuits>=43.0.0"]
    ⟨"resilient-circuits>=43.0.0", by decide, Or.inr (by decide)⟩

/-- Claim C5: `package_files_validate_customize_py` returns a pass
Issue when the import-definition parser succeeds, and when the parser
raises the domain exception (`SDKException`) it returns — never
raises — a CRITICAL Issue whose description is the exception's
rendered message (`str(e)`, newlines replaced by spaces) truncated to
start at the message's first occurrence of the literal `"ERROR"`.
Since `str(e)` always begins with `"ERROR: "`, that first occurrence
is at index 0 (proved as the first component of the error conjunct),
so the truncation keeps the whole message and the `str.index`
`ValueError` path is never taken (third conjunct). -/
theorem C5_customize_validation :
    (∀ d : String,
      package_files_validate_customize_py customizeAttr (.ok d) =
        .ok { name := "customize.py valid",
              description := "ImportDefinition found and parsed from customize.py",
              severity := .debug,
              solution := "ImportDefinition found: " ++ d }) ∧
    (∀ e : String,
      pyFindList "ERROR".toList (pyReplace (sdkExceptionStr e) "\n" " ").toList = some 0 ∧
      package_files_validate_customize_py customizeAttr (.error e) =
        .ok { name := "customize.py invalid",
              description := pyReplace (sdkExceptionStr e) "\n" " ",
              severity := .critical,
              solution := "Reload the code generation for customize.py" }) ∧
    (∀ (r : Except SDKException String) (msg : PyValueError),
      package_files_validate_customize_py customizeAttr r ≠ .error msg) := by
  refine ⟨fun d => rfl, ?_, ?_⟩
  · intro e
    have hfind := sdkExceptionStr_find_zero e
    refine ⟨hfind, ?_⟩
    simp only [package_files_validate_customize_py, hfind, Nat.cast_zero, pySliceFrom_zero]
    rfl
  · intro r msg
    cases r with
    | ok d => simp [package_files_validate_customize_py]
    | error e =>
      simp only [package_files_validate_customize_py]
      rw [sdkExceptionStr_find_zero e]
      simp

/-- Witness for C5: the repository's own test input —
`SDKException("failed")` — yields the returned CRITICAL Issue whose
description is the rendered message "ERROR: failed". -/
theorem C5_customize_validation_witness :
    package_files_validate_customize_py customizeAttr (.error "failed") =
      .ok { name := "customize.py invalid",
            description := "ERROR: failed",
            severity := .critical,
            solution := "Reload the code generation for customize.py" } := by
  have h := (C5_customize_validation.2.1 "failed").2
  exact h

/-- The characterization of the manifest template-line loop used by
C6: the collected diffs are exactly the stripped non-blank template
lines without a sufficiently similar match. -/
lemma manifestDiffs_eq (cm : String → List String → List String)
    (fc : List String) (tl : List String) :
    manifestDiffs cm fc tl =
      (tl.filter (fun l => decide (pyStrip l ≠ "") && decide (cm l fc = []))).map pyStrip := by
  induction tl with
  | nil => rfl
  | cons line rest ih =>
    by_cases h1 : pyStrip line = ""
    · simp [manifestDiffs, h1, ih]
    · by_cases h2 : cm line fc = []
      · simp [manifestDiffs, h1, h2, ih]
      · simp [manifestDiffs, h1, h2, ih]

/-- Claim C6:  The MANIFEST.in check: the unmatched-line list is exactly
the set of stripped non-blank template lines with no sufficiently
similar match in the target file (blank template lines are skipped and
never reported); when it is non-empty the result is a single
WARNING-severity Issue whose description enumerates exactly those
lines, and when every non-blank template line has a match the result
is the DEBUG/pass Issue. -/
theorem C6_manifest_fuzzy_match (cm : String → List String → List String)
    (fileRendered : String) (fileContents : List String) :
    (manifestDiffs cm fileContents (pySplitlinesKeepends fileRendered) =
      ((pySplitlinesKeepends fileRendered).filter
        (fun l => decide (pyStrip l ≠ "") && decide (cm l fileContents = []))).map pyStrip) ∧
    (manifestDiffs cm fileContents (pySplitlinesKeepends fileRendered) ≠ [] →
      package_files_manifest manifestAttr cm fileRendered fileContents =
        { name := "MANIFEST.in is missing template lines",
          description := "MANIFEST.in is missing the following lines: "
            ++ pyReprList (manifestDiffs cm fileContents (pySplitlinesKeepends fileRendered)),
          severity := .warn,
          solution := "Add the missing lines to MANIFEST.in" }) ∧
    (manifestDiffs cm fileContents (pySplitlinesKeepends fileRendered) = [] →
      package_files_manifest manifestAttr cm fileRendered fileContents =
        { name := "MANIFEST.in contains the template lines",
          description := "MANIFEST.in has all the lines of the template",
          severity := .debug, solution := "" }) := by
  refine ⟨manifestDiffs_eq cm fileContents _, ?_, ?_⟩
  · intro h
    simp only [package_files_manifest]
    rw [if_pos h]
    rfl
  · intro h
    simp only [package_files_manifest]
    rw [h]
    simp [manifestAttr]

/-- Witness for C6: a template with one matched and one unmatched
non-blank line (and one blank line) yields the WARNING Issue listing
exactly the unmatched line. -/
theorem C6_manifest_fuzzy_match_witness :
    package_files_manifest manifestAttr
        (fun l fc => if fc.contains l then [l] else [])
        "include a.txt\n\ninclude b.txt\n" ["include a.txt\n"] =
      { name := "MANIFEST.in is missing template lines",
        description := "MANIFEST.in is missing the following lines: ['include b.txt']",
        severity := .warn,
        solution := "Add the missing lines to MANIFEST.in" } := by
  have h := (C6_manifest_fuzzy_match
    (fun l fc => if fc.contains l then [l] else [])
    "include a.txt\n\ninclude b.txt\n" ["include a.txt\n"]).2.1 (by decide)
  exact h

/-- Claim C4:  The README.md check evaluates its conditions in a fixed
order — (1) file identical to the raw codegen template, (2) docgen
placeholder marker present, (3) `"TODO"` present, (4) a referenced
screenshot path not readable under the package root — and reports only
the first failing condition; in particular a README byte-identical to
the codegen template yields the CRITICAL codegen-not-run Issue
regardless of its other contents.  `ratioEqOne` is the
`difflib.SequenceMatcher(...).ratio() == 1.0` collaborator, required
(per difflib's documented contract) to be `true` on identical
sequences. -/
theorem C4_readme_first_match (ratioEqOne : List String → List String → Bool)
    (hrefl : ∀ l, ratioEqOne l l = true)
    (parsePaths : List String → Except SDKException (List String))
    (readable : String → Bool) (pathPackage : String)
    (fileContents : List String) (codegenRendered : String) :
    (fileContents = pySplitlinesKeepends codegenRendered →
      package_files_validate_readme readmeAttr ratioEqOne parsePaths readable
          pathPackage fileContents codegenRendered =
        .ok { name := "README.md is still the codegen template",
              description := "README.md is unchanged since codegen ran; docgen has not been run",
              severity := .critical,
              solution := "Run docgen on the package at " ++ pathPackage }) ∧
    (ratioEqOne fileContents (pySplitlinesKeepends codegenRendered) = false →
      fileContents.any (fun line =>
        strContains line ("<!-- " ++ DOCGEN_PLACEHOLDER_STRING ++ " -->")) = true →
      package_files_validate_readme readmeAttr ratioEqOne parsePaths readable
          pathPackage fileContents codegenRendered =
        .ok { name := "README.md detected placeholder",
              description := "README.md still contains the '::CHANGE_ME::' placeholder",
              severity := .critical,
              solution := "Replace the '::CHANGE_ME::' placeholder with your documentation" }) ∧
    (ratioEqOne fileContents (pySplitlinesKeepends codegenRendered) = false →
      fileContents.any (fun line =>
        strContains line ("<!-- " ++ DOCGEN_PLACEHOLDER_STRING ++ " -->")) = false →
      fileContents.any (fun line => strContains line "TODO") = true →
      package_files_validate_readme readmeAttr ratioEqOne parsePaths readable
          pathPackage fileContents codegenRendered =
        .ok { name := "README.md detected TODO",
              description := "README.md still contains TODOs",
              severity := .warn,
              solution := "Complete and remove the TODOs in README.md" }) ∧
    (∀ ps : List String,
      ratioEqOne fileContents (pySplitlinesKeepends codegenRendered) = false →
      fileContents.any (fun line =>
        strContains line ("<!-- " ++ DOCGEN_PLACEHOLDER_STRING ++ " -->")) = false →
      fileContents.any (fun line => strContains line "TODO") = false →
      parsePaths fileContents = .ok ps →
      ((∃ p ∈ ps, readable (osPathJoin pathPackage p) = false) →
        package_files_validate_readme readmeAttr ratioEqOne parsePaths readable
            pathPackage fileContents codegenRendered =
          .ok { name := "README.md has invalid screenshots",
                description := "Cannot find the following screenshot(s) referenced in the README: "
                  ++ pyReprList (ps.filter (fun p => ¬ readable (osPathJoin pathPackage p))),
                severity := .critical,
                solution := "Make sure all screenshots referenced in README.md exist under the package" }) ∧
      ((¬ ∃ p ∈ ps, readable (osPathJoin pathPackage p) = false) →
        package_files_validate_readme readmeAttr ratioEqOne parsePaths readable
            pathPackage fileContents codegenRendered =
          .ok { name := "README.md valid",
                description := "README.md passed the automated checks",
                severity := .debug,
                solution := "Manually validate README.md for correctness" })) := by
  refine ⟨?_, ?_, ?_, ?_⟩
  · intro h
    subst h
    simp only [package_files_validate_readme]
    rw [hrefl]
    rfl
  · intro h1 h2
    simp only [package_files_validate_readme]
    rw [h1, h2]
    rfl
  · intro h1 h2 h3
    simp only [package_files_validate_readme]
    rw [h1, h2, h3]
    rfl
  · intro ps h1 h2 h3 hp
    simp [DOCGEN_PLACEHOLDER_STRING] at h2
    constructor
    · intro hf
      simp [package_files_validate_readme, h1, h3, hp, hf, readmeAttr,
        DOCGEN_PLACEHOLDER_STRING]
      exact h2
    · intro hf
      simp [package_files_validate_readme, h1, h3, hp, hf, readmeAttr,
        DOCGEN_PLACEHOLDER_STRING]
      exact h2

/-- Witness for C4: a README byte-identical to the rendered codegen
template (and containing a TODO) is reported as the codegen-not-run
CRITICAL Issue. -/
theorem C4_readme_first_match_witness :
    package_files_validate_readme readmeAttr (fun a b => a == b)
        (fun _ => .ok []) (fun _ => true) "/p"
        ["# README\n", "TODO\n"] "# README\nTODO\n" =
      .ok { name := "README.md is still the codegen template",
            description := "README.md is unchanged since codegen ran; docgen has not been run",
            severity := .critical,
            solution := "Run docgen on the package at /p" } := by
  have h := (C4_readme_first_match (fun a b => a == b)
    (fun l => by simp) (fun _ => .ok []) (fun _ => true) "/p"
    ["# README\n", "TODO\n"] "# README\nTODO\n").1 (by decide)
  exact h

/-- Witness for C10: the circuits-installed helper evaluated at an
installed, up-to-date version lookup. -/
theorem C10_success_iff_debug_witness :
    (true = true ↔
      (({ name := "'resilient-circuits' found in env",
          description := "'resilient-circuits' was found in the python environment with the minimum version installed",
          severity := .debug, solution := "" } : SDKValidateIssue).severity = .debug)) ∧
    (true = false →
      (({ name := "'resilient-circuits' found in env",
          description := "'resilient-circuits' was found in the python environment with the minimum version installed",
          severity := .debug, solution := "" } : SDKValidateIssue).severity = .critical)) := by
  exact C10_success_iff_debug.1 ⟨some "43.0.0", true, false⟩ true
    { name := "'resilient-circuits' found in env",
      description := "'resilient-circuits' was found in the python environment with the minimum version installed",
      severity := .debug, solution := "" } rfl

end ResilientSdk
